import Mathlib

/-!
Verification of the metrics computation and filtering pipeline of the
real-estate deal finder: the financial calculators (`calculations.py`),
the listing pipeline (`orchestrator.py`) and the rent-estimate cache
(`api_clients.py`), shallowly embedded over exact rational arithmetic.
-/

namespace RealEstate

/-! ## calculations.py -/

/-- Embeds `calculate_monthly_mortgage` (calculations.py lines 12-73).
Numbers are modelled as rationals; the `ZeroDivisionError` guard of the
`try` block becomes an explicit test of the denominator. -/
def calculate_monthly_mortgage (total_price down_payment_percent
    interest_rate_decimal : ℚ) (loan_term_years : ℤ) : Option ℚ :=
  let loan_amount := total_price * (1 - down_payment_percent)
  if loan_amount ≤ 0 then
    some 0
  else if loan_term_years ≤ 0 then
    none
  else if interest_rate_decimal = 0 then
    some (loan_amount / ((loan_term_years : ℚ) * 12))
  else
    let monthly_interest_rate := interest_rate_decimal / 12
    let number_of_payments := (loan_term_years * 12).toNat
    let numerator := monthly_interest_rate * (1 + monthly_interest_rate) ^ number_of_payments
    let denominator := (1 + monthly_interest_rate) ^ number_of_payments - 1
    if denominator = 0 then none
    else some (loan_amount * (numerator / denominator))

/-- Embeds `calculate_cash_flow` (calculations.py lines 76-102). -/
def calculate_cash_flow (monthly_rent monthly_mortgage : Option ℚ)
    (monthly_expenses : ℚ) : Option ℚ :=
  match monthly_rent, monthly_mortgage with
  | some rent, some mortgage => some (rent - mortgage - monthly_expenses)
  | _, _ => none

/-- Embeds `calculate_coc_return` (calculations.py lines 105-144). -/
def calculate_coc_return (total_price down_payment_percent : ℚ)
    (annual_cash_flow : Option ℚ) : Option ℚ :=
  let cash_invested := total_price * down_payment_percent
  if cash_invested ≤ 0 then
    none
  else
    match annual_cash_flow with
    | none => none
    | some acf => some (acf / cash_invested * 100)

/-! ## orchestrator.py -/

/-- The configuration values the orchestrator reads from `config` in
`RealEstateOrchestrator.__init__` and `calculate_monthly_expenses`.
Percent values are kept as the raw configured percentages; the
orchestrator divides by 100 where the code does. -/
structure OrchestratorConfig where
  min_coc_return : ℚ
  min_cash_flow : ℚ
  down_payment_percent : ℚ
  interest_rate_decimal : ℚ
  loan_term_years : ℤ
  annual_property_tax_percent : ℚ
  annual_insurance_percent : ℚ
  monthly_hoa : ℚ
  monthly_property_management_percent : ℚ
  monthly_maintenance_percent : ℚ
  monthly_vacancy_percent : ℚ
deriving DecidableEq

/-- Embeds `RealEstateOrchestrator.calculate_monthly_expenses`
(orchestrator.py lines 59-104). -/
def calculate_monthly_expenses (cfg : OrchestratorConfig)
    (property_price : ℚ) : ℚ :=
  let monthly_property_tax := property_price * (cfg.annual_property_tax_percent / 100) / 12
  let monthly_insurance := property_price * (cfg.annual_insurance_percent / 100) / 12
  let monthly_hoa := cfg.monthly_hoa
  let estimated_rent := property_price * (8 / 1000)
  let monthly_property_management :=
    estimated_rent * (cfg.monthly_property_management_percent / 100)
  let monthly_maintenance := estimated_rent * (cfg.monthly_maintenance_percent / 100)
  let monthly_vacancy := estimated_rent * (cfg.monthly_vacancy_percent / 100)
  monthly_property_tax + monthly_insurance + monthly_hoa +
    monthly_property_management + monthly_maintenance + monthly_vacancy

/-- A raw listing as produced by `ZillowApiClient.get_listings_by_zip`
and consumed by `process_zip_codes`: optional fields model keys that may
be missing from the listing dictionary. -/
structure RawListing where
  address : Option String
  price : Option ℚ
  bedrooms : Option ℤ
  bathrooms : Option ℚ
  sqft : Option ℚ
  home_type : String
  year_built : Option ℤ
  zillow_url : Option String
deriving DecidableEq

/-- The `property_data` dictionary built in `process_zip_codes`
(orchestrator.py lines 222-238). -/
structure ScoredProperty where
  address : Option String
  price : ℚ
  bedrooms : ℤ
  bathrooms : Option ℚ
  sqft : Option ℚ
  year_built : Option ℤ
  property_type : String
  zillow_url : Option String
  estimated_rent : ℚ
  estimated_mortgage : ℚ
  monthly_expenses : ℚ
  estimated_monthly_cash_flow : ℚ
  estimated_annual_cash_flow : ℚ
  estimated_coc_return : ℚ
  zip_code : String
deriving DecidableEq

/-- Python's `str.lower()` applied to the `home_type` field
(orchestrator.py line 129), as a character-wise lowering. -/
def pyLower (s : String) : String :=
  String.mk (s.data.map Char.toLower)

/-- The body of the inner listing loop of `process_zip_codes`
(orchestrator.py lines 127-240): validation, rent lookup, metric
computation; `none` models every `continue` that skips the listing.
`rent_lookup` abstracts `RentCastApiClient.get_rent_estimate`. -/
def processListing (cfg : OrchestratorConfig)
    (rent_lookup : String → ℤ → Option ℚ) (zip_code : String)
    (listing : RawListing) : Option ScoredProperty :=
  let home_type := pyLower listing.home_type
  match listing.price with
  | none => none
  | some price =>
    if price ≤ 0 then none
    else
      match listing.bedrooms with
      | none => none
      | some bedrooms =>
        if bedrooms ≤ 0 then none
        else if ¬ (home_type = "singlefamily" ∨ home_type = "multifamily") then none
        else
          let property_type :=
            if home_type = "singlefamily" then "Single Family" else "Multifamily"
          match rent_lookup zip_code bedrooms with
          | none => none
          | some rent_estimate =>
            let monthly_expenses := calculate_monthly_expenses cfg price
            match calculate_monthly_mortgage price (cfg.down_payment_percent / 100)
                (cfg.interest_rate_decimal / 100) cfg.loan_term_years with
            | none => none
            | some monthly_mortgage =>
              match calculate_cash_flow (some rent_estimate) (some monthly_mortgage)
                  monthly_expenses with
              | none => none
              | some monthly_cash_flow =>
                let annual_cash_flow := monthly_cash_flow * 12
                match calculate_coc_return price (cfg.down_payment_percent / 100)
                    (some annual_cash_flow) with
                | none => none
                | some coc_return =>
                  some
                    { address := listing.address
                      price := price
                      bedrooms := bedrooms
                      bathrooms := listing.bathrooms
                      sqft := listing.sqft
                      year_built := listing.year_built
                      property_type := property_type
                      zillow_url := listing.zillow_url
                      estimated_rent := rent_estimate
                      estimated_mortgage := monthly_mortgage
                      monthly_expenses := monthly_expenses
                      estimated_monthly_cash_flow := monthly_cash_flow
                      estimated_annual_cash_flow := annual_cash_flow
                      estimated_coc_return := coc_return
                      zip_code := zip_code }

/-- `all_processed_properties` as accumulated over all ZIP codes
(orchestrator.py lines 116-242). `get_listings` abstracts
`ZillowApiClient.get_listings_by_zip`. -/
def processed_properties (cfg : OrchestratorConfig)
    (get_listings : String → List RawListing)
    (rent_lookup : String → ℤ → Option ℚ)
    (zip_codes : List String) : List ScoredProperty :=
  zip_codes.flatMap fun zip_code =>
    (get_listings zip_code).filterMap (processListing cfg rent_lookup zip_code)

/-- Embeds `process_zip_codes` (orchestrator.py lines 106-259): the
processing loop followed by the two-threshold filter of lines 247-256.
The `is not None` halves of `passes_coc`/`passes_cf` are vacuous here
because the scored fields are non-optional by construction. -/
def process_zip_codes (cfg : OrchestratorConfig)
    (get_listings : String → List RawListing)
    (rent_lookup : String → ℤ → Option ℚ)
    (zip_codes : List String) : List ScoredProperty :=
  (processed_properties cfg get_listings rent_lookup zip_codes).filter fun prop =>
    decide (cfg.min_coc_return ≤ prop.estimated_coc_return) &&
      decide (cfg.min_cash_flow ≤ prop.estimated_monthly_cash_flow)

/-! ## api_clients.py — RentCastApiClient cache -/

/-- A persisted cache entry: a JSON object that may lack the
`timestamp` or `data` key (api_clients.py line 284 checks both). -/
structure CacheEntry where
  timestamp : Option ℚ
  data : Option ℚ
deriving DecidableEq

/-- The mutable state of `RentCastApiClient` relevant to caching:
`self.cache_data` (an association list standing for the JSON
dictionary) and `self.cache_duration_seconds`. -/
structure RentCastCacheState where
  cache_data : List (String × CacheEntry)
  cache_duration_seconds : ℚ
deriving DecidableEq

/-- The cache key `f"{zip_code}_{bedrooms}"` of api_clients.py line 373. -/
def cacheKey (zip_code : String) (bedrooms : ℤ) : String :=
  zip_code ++ "_" ++ toString bedrooms

/-- Embeds `RentCastApiClient._is_cache_valid` (api_clients.py lines
268-297): the entry must exist, carry both `timestamp` and `data`
fields, and its age `now - timestamp` must be strictly below the
configured duration (the code returns `False` when `age >= duration`). -/
def is_cache_valid (st : RentCastCacheState) (now : ℚ)
    (cache_key : String) : Bool :=
  match st.cache_data.lookup cache_key with
  | none => false
  | some entry =>
    match entry.timestamp, entry.data with
    | some timestamp, some _ => decide (now - timestamp < st.cache_duration_seconds)
    | _, _ => false

/-- Dictionary assignment `self.cache_data[cache_key] = ...`
(api_clients.py lines 410-413): the new entry fully replaces any prior
entry under the same key. -/
def setCacheEntry (l : List (String × CacheEntry)) (key : String)
    (entry : CacheEntry) : List (String × CacheEntry) :=
  (key, entry) :: l.filter fun kv => kv.1 ≠ key

/-- Result of one `get_rent_estimate` call: the returned value, the
cache state after the call, whether an external API request was made,
and whether `_save_cache` wrote the cache file. -/
structure RentEstimateOutcome where
  result : Option ℚ
  state : RentCastCacheState
  fetched : Bool
  saved : Bool
deriving DecidableEq

/-- Embeds `RentCastApiClient.get_rent_estimate` (api_clients.py lines
359-426). `now` stands for `datetime.datetime.now().timestamp()` and
`fetch` for the outcome of the external RentCast request: `none` covers
an `APIError`, a missing `rent` key, or an unparsable value — all of
which return `None` without touching the cache. -/
def get_rent_estimate (st : RentCastCacheState) (now : ℚ)
    (fetch : Option ℚ) (zip_code : String) (bedrooms : ℤ) :
    RentEstimateOutcome :=
  let cache_key := cacheKey zip_code bedrooms
  if is_cache_valid st now cache_key then
    { result := (st.cache_data.lookup cache_key).bind fun entry => entry.data
      state := st
      fetched := false
      saved := false }
  else
    match fetch with
    | none => { result := none, state := st, fetched := true, saved := false }
    | some rent_estimate_float =>
      { result := some rent_estimate_float
        state :=
          { st with
            cache_data := setCacheEntry st.cache_data cache_key
              ⟨some now, some rent_estimate_float⟩ }
        fetched := true
        saved := true }

/-! ## Claims about calculations.py -/

/-- C1: for loan = price * (1 - down_payment_fraction) > 0 and
term_years > 0, `calculate_monthly_mortgage` returns exactly
loan / (term_years * 12) when the annual rate is 0, and
loan * r * (1+r)^n / ((1+r)^n - 1) with r = annual_rate/12 and
n = term_years * 12 when the annual rate is positive. -/
theorem calculate_monthly_mortgage_formula (price dp rate : ℚ) (term : ℤ)
    (hloan : 0 < price * (1 - dp)) (hterm : 0 < term) :
    (rate = 0 →
      calculate_monthly_mortgage price dp rate term
        = some (price * (1 - dp) / ((term : ℚ) * 12))) ∧
    (0 < rate →
      calculate_monthly_mortgage price dp rate term
        = some (price * (1 - dp) * (rate / 12) * (1 + rate / 12) ^ (term * 12).toNat
            / ((1 + rate / 12) ^ (term * 12).toNat - 1))) := by
  constructor
  · intro h0
    simp only [calculate_monthly_mortgage]
    rw [if_neg (not_le.mpr hloan), if_neg (not_le.mpr hterm), if_pos h0]
  · intro hrate
    have h12 : (0:ℚ) < rate / 12 := by positivity
    have hbase : (1:ℚ) < 1 + rate / 12 := by linarith
    have hn : (term * 12).toNat ≠ 0 := by
      have h : (0:ℤ) < term * 12 := by positivity
      omega
    have hpow : (1:ℚ) < (1 + rate / 12) ^ (term * 12).toNat := one_lt_pow₀ hbase hn
    have hden : (1 + rate / 12) ^ (term * 12).toNat - 1 ≠ 0 := by
      intro h; rw [sub_eq_zero] at h; exact absurd h.symm (ne_of_lt hpow)
    simp only [calculate_monthly_mortgage]
    rw [if_neg (not_le.mpr hloan), if_neg (not_le.mpr hterm),
      if_neg (ne_of_gt hrate), if_neg hden]
    congr 1
    ring

/-- C1 witness: the spec's concrete instance
`calculate_monthly_mortgage(300000, 0.20, 0.0, 30) = (300000*0.8)/360`. -/
theorem calculate_monthly_mortgage_formula_witness :
    (0:ℚ) < 300000 * (1 - 1/5) ∧ (0:ℤ) < 30 ∧
    calculate_monthly_mortgage 300000 (1/5) 0 30
      = some (300000 * (1 - 1/5) / (((30:ℤ) : ℚ) * 12)) :=
  ⟨by norm_num, by norm_num,
    (calculate_monthly_mortgage_formula 300000 (1/5) 0 30 (by norm_num) (by norm_num)).1 rfl⟩

/-- C3: `calculate_cash_flow` is absent iff rent or mortgage is absent,
and otherwise returns exactly rent - mortgage - expenses; in particular
`calculate_cash_flow(2000, 1500, 300) = 200` and
`calculate_cash_flow(None, 1500, 300)` is absent. -/
theorem calculate_cash_flow_spec :
    (∀ (rent mortgage : Option ℚ) (expenses : ℚ),
      calculate_cash_flow rent mortgage expenses = none ↔ rent = none ∨ mortgage = none) ∧
    (∀ (rent mortgage expenses : ℚ),
      calculate_cash_flow (some rent) (some mortgage) expenses
        = some (rent - mortgage - expenses)) ∧
    calculate_cash_flow (some 2000) (some 1500) 300 = some 200 ∧
    calculate_cash_flow none (some 1500) 300 = none := by
  refine ⟨?_, fun r m e => rfl, by norm_num [calculate_cash_flow], rfl⟩
  rintro (_|r) (_|m) e <;> simp [calculate_cash_flow]

/-- C4: with cash_invested = price * down_payment_fraction,
`calculate_coc_return` is absent when cash_invested ≤ 0 or the annual
cash flow is absent, and otherwise returns exactly
(annual_cash_flow / cash_invested) * 100; in particular
`calculate_coc_return(300000, 0.20, 6000) = 10.0` and
`calculate_coc_return(300000, 0.0, 6000)` is absent. -/
theorem calculate_coc_return_spec :
    (∀ (price dp : ℚ) (acf : Option ℚ), price * dp ≤ 0 →
      calculate_coc_return price dp acf = none) ∧
    (∀ (price dp : ℚ), calculate_coc_return price dp none = none) ∧
    (∀ (price dp acf : ℚ), 0 < price * dp →
      calculate_coc_return price dp (some acf) = some (acf / (price * dp) * 100)) ∧
    calculate_coc_return 300000 (1/5) (some 6000) = some 10 ∧
    calculate_coc_return 300000 0 (some 6000) = none := by
  refine ⟨?_, ?_, ?_, by norm_num [calculate_coc_return], by norm_num [calculate_coc_return]⟩
  · intro p d acf h
    simp only [calculate_coc_return]
    rw [if_pos h]
  · intro p d
    simp only [calculate_coc_return]
    split <;> rfl
  · intro p d acf h
    simp only [calculate_coc_return]
    rw [if_neg (not_le.mpr h)]

/-- C4 witness: the two conditional conjuncts applied at concrete
inputs. -/
theorem calculate_coc_return_spec_witness :
    ((2:ℚ) * 0 ≤ 0 ∧ calculate_coc_return 2 0 (some 5) = none) ∧
    ((0:ℚ) < 2 * (1/2) ∧ calculate_coc_return 2 (1/2) (some 3) = some (3 / (2 * (1/2)) * 100)) :=
  ⟨⟨by norm_num, calculate_coc_return_spec.1 2 0 (some 5) (by norm_num)⟩,
   ⟨by norm_num, calculate_coc_return_spec.2.2.1 2 (1/2) 3 (by norm_num)⟩⟩

/-- C5 counterexample: `calculate_monthly_mortgage(300000, 1.0, 0.045, 0)`
returns `some 0`, not absent — the `loan_amount <= 0` check at
calculations.py line 49 fires before the `loan_term_years <= 0` check at
line 53, so the claim's "for every down-payment fraction" fails at a
100% down payment. -/
theorem calculate_monthly_mortgage_term_zero_counterexample :
    calculate_monthly_mortgage 300000 1 (45/1000) 0 = some 0 ∧
    ¬ (calculate_monthly_mortgage 300000 1 (45/1000) 0 = none) := by
  have h : calculate_monthly_mortgage 300000 1 (45/1000) 0 = some 0 := by
    norm_num [calculate_monthly_mortgage]
  exact ⟨h, by simp [h]⟩

/-- C5 (amended): for every price, down-payment fraction and annual rate
with loan = price * (1 - down_payment_fraction) > 0,
`calculate_monthly_mortgage` with term_years ≤ 0 returns absent. -/
theorem calculate_monthly_mortgage_invalid_term (price dp rate : ℚ) (term : ℤ)
    (hloan : 0 < price * (1 - dp)) (hterm : term ≤ 0) :
    calculate_monthly_mortgage price dp rate term = none := by
  simp only [calculate_monthly_mortgage]
  rw [if_neg (not_le.mpr hloan), if_pos hterm]

/-- C5 witness: the amended statement at the spec's concrete instance
with a positive loan. -/
theorem calculate_monthly_mortgage_invalid_term_witness :
    (0:ℚ) < 300000 * (1 - 1/5) ∧ ((0:ℤ) ≤ 0) ∧
    calculate_monthly_mortgage 300000 (1/5) (45/1000) 0 = none :=
  ⟨by norm_num, le_refl 0,
    calculate_monthly_mortgage_invalid_term 300000 (1/5) (45/1000) 0 (by norm_num) (le_refl 0)⟩

/-- C6: whenever loan = price * (1 - down_payment_fraction) ≤ 0,
`calculate_monthly_mortgage` returns 0 regardless of the other inputs
(term_years ≤ 0 included, since the loan check precedes the term
check); in particular a 100% down payment always yields 0. -/
theorem calculate_monthly_mortgage_no_loan (price dp rate : ℚ) (term : ℤ)
    (hloan : price * (1 - dp) ≤ 0) :
    calculate_monthly_mortgage price dp rate term = some 0 ∧
    ∀ (p r : ℚ) (t : ℤ), calculate_monthly_mortgage p 1 r t = some 0 := by
  constructor
  · simp only [calculate_monthly_mortgage]
    rw [if_pos hloan]
  · intro p r t
    simp [calculate_monthly_mortgage]

/-- C6 witness: a negative loan together with a negative term still
returns 0. -/
theorem calculate_monthly_mortgage_no_loan_witness :
    ((5:ℚ) * (1 - 2) ≤ 0) ∧ calculate_monthly_mortgage 5 2 3 (-1) = some 0 :=
  ⟨by norm_num, (calculate_monthly_mortgage_no_loan 5 2 3 (-1) (by norm_num)).1⟩

/-! ## Claims about orchestrator.py -/

/-- C2: a ScoredProperty computed by `process_zip_codes` appears in the
returned filtered list iff its cash-on-cash return meets
`min_coc_return` and its monthly cash flow meets `min_cash_flow`; both
thresholds are independent hard cutoffs. -/
theorem process_zip_codes_filter_iff (cfg : OrchestratorConfig)
    (get_listings : String → List RawListing)
    (rent_lookup : String → ℤ → Option ℚ) (zip_codes : List String)
    (prop : ScoredProperty) :
    prop ∈ process_zip_codes cfg get_listings rent_lookup zip_codes ↔
      prop ∈ processed_properties cfg get_listings rent_lookup zip_codes ∧
        cfg.min_coc_return ≤ prop.estimated_coc_return ∧
        cfg.min_cash_flow ≤ prop.estimated_monthly_cash_flow := by
  simp [process_zip_codes, List.mem_filter, and_assoc]

/-- Helper: a listing whose lowercased category is neither
`singlefamily` nor `multifamily` is skipped by `processListing`. -/
theorem processListing_other_category_none (cfg : OrchestratorConfig)
    (rent_lookup : String → ℤ → Option ℚ) (zip_code : String) (l : RawListing)
    (hcat : ¬ (pyLower l.home_type = "singlefamily" ∨ pyLower l.home_type = "multifamily")) :
    processListing cfg rent_lookup zip_code l = none := by
  cases hp : l.price with
  | none => simp [processListing, hp]
  | some price =>
    cases hb : l.bedrooms with
    | none => simp [processListing, hp, hb]
    | some bedrooms =>
      simp only [processListing, hp, hb]
      split_ifs
      · rfl
      · rfl
      · rfl

/-- C8: a ScoredProperty is produced from a raw listing only if its
property category (lowercased `home_type`) is single-family or
multi-family; any other category — condo included — is always skipped,
regardless of its financial data. -/
theorem processListing_category (cfg : OrchestratorConfig)
    (rent_lookup : String → ℤ → Option ℚ) (zip_code : String) (l : RawListing) :
    (∀ sp : ScoredProperty, processListing cfg rent_lookup zip_code l = some sp →
      pyLower l.home_type = "singlefamily" ∨ pyLower l.home_type = "multifamily") ∧
    (¬ (pyLower l.home_type = "singlefamily" ∨ pyLower l.home_type = "multifamily") →
      processListing cfg rent_lookup zip_code l = none) ∧
    (pyLower l.home_type = "condo" →
      processListing cfg rent_lookup zip_code l = none) := by
  have hskip := processListing_other_category_none cfg rent_lookup zip_code l
  refine ⟨?_, hskip, ?_⟩
  · intro sp h
    by_contra hcat
    rw [hskip hcat] at h
    exact Option.noConfusion h
  · intro hcondo
    refine hskip ?_
    rw [hcondo]
    decide

/-- Example configuration for the pipeline witnesses: the repository's
default assumptions except a zero interest rate. -/
def exCfg : OrchestratorConfig :=
  { min_coc_return := 8, min_cash_flow := 100, down_payment_percent := 20
    interest_rate_decimal := 0, loan_term_years := 30
    annual_property_tax_percent := 12/10, annual_insurance_percent := 1/2
    monthly_hoa := 0, monthly_property_management_percent := 10
    monthly_maintenance_percent := 5, monthly_vacancy_percent := 5 }

/-- Example raw listing for the pipeline witnesses. -/
def exListing : RawListing :=
  { address := some "1 Main St", price := some 100000, bedrooms := some 3
    bathrooms := none, sqft := none, home_type := "SingleFamily"
    year_built := none, zillow_url := none }

/-- Example rent source for the pipeline witnesses. -/
def exRent : String → ℤ → Option ℚ := fun _ _ => some 2000

/-- The ScoredProperty the pipeline produces from `exListing`. -/
def exScored : ScoredProperty :=
  { address := some "1 Main St", price := 100000, bedrooms := 3
    bathrooms := none, sqft := none, year_built := none
    property_type := "Single Family", zillow_url := none
    estimated_rent := 2000, estimated_mortgage := 2000/9
    monthly_expenses := 905/3, estimated_monthly_cash_flow := 13285/9
    estimated_annual_cash_flow := 53140/3, estimated_coc_return := 2657/30
    zip_code := "90210" }

/-- Helper: `processListing` on the example inputs yields `exScored`. -/
theorem processListing_exScored :
    processListing exCfg exRent "90210" exListing = some exScored := by
  have hlow : pyLower "SingleFamily" = "singlefamily" := by decide
  norm_num [processListing, calculate_monthly_expenses, calculate_monthly_mortgage,
    calculate_cash_flow, calculate_coc_return, exCfg, exListing, exRent, exScored, hlow]

/-- C8 witness: the category property at the concrete example listing. -/
theorem processListing_category_witness :
    pyLower exListing.home_type = "singlefamily" ∨
      pyLower exListing.home_type = "multifamily" :=
  (processListing_category exCfg exRent "90210" exListing).1 exScored processListing_exScored

/-- Helper: every ScoredProperty built by `processListing` has
`estimated_annual_cash_flow = estimated_monthly_cash_flow * 12` by
construction (orchestrator.py line 209). -/
theorem processListing_annual (cfg : OrchestratorConfig)
    (rent_lookup : String → ℤ → Option ℚ) (zip_code : String) (l : RawListing)
    (sp : ScoredProperty) (h : processListing cfg rent_lookup zip_code l = some sp) :
    sp.estimated_annual_cash_flow = sp.estimated_monthly_cash_flow * 12 := by
  simp only [processListing] at h
  repeat' split at h
  all_goals first
    | exact Option.noConfusion h
    | (injection h with h'; subst h'; rfl)

/-- C9: every ScoredProperty constructed by the pipeline — and in
particular every one emitted in the filtered output — satisfies
`estimated_annual_cash_flow = estimated_monthly_cash_flow * 12`
exactly. -/
theorem pipeline_annual_cash_flow_invariant (cfg : OrchestratorConfig)
    (get_listings : String → List RawListing)
    (rent_lookup : String → ℤ → Option ℚ) (zip_codes : List String) :
    (∀ sp ∈ processed_properties cfg get_listings rent_lookup zip_codes,
      sp.estimated_annual_cash_flow = sp.estimated_monthly_cash_flow * 12) ∧
    (∀ sp ∈ process_zip_codes cfg get_listings rent_lookup zip_codes,
      sp.estimated_annual_cash_flow = sp.estimated_monthly_cash_flow * 12) := by
  have hall : ∀ sp ∈ processed_properties cfg get_listings rent_lookup zip_codes,
      sp.estimated_annual_cash_flow = sp.estimated_monthly_cash_flow * 12 := by
    intro sp hmem
    simp only [processed_properties, List.mem_flatMap, List.mem_filterMap] at hmem
    obtain ⟨z, hz, l, hl, hsome⟩ := hmem
    exact processListing_annual cfg rent_lookup z l sp hsome
  refine ⟨hall, fun sp hmem => hall sp ?_⟩
  rw [process_zip_codes, List.mem_filter] at hmem
  exact hmem.1

/-- C9 witness: the invariant at the concrete example pipeline run. -/
theorem pipeline_annual_cash_flow_invariant_witness :
    exScored.estimated_annual_cash_flow = exScored.estimated_monthly_cash_flow * 12 :=
  (pipeline_annual_cash_flow_invariant exCfg (fun _ => [exListing]) exRent ["90210"]).1
    exScored (by simp [processed_properties, processListing_exScored])

/-! ## Claims about api_clients.py (rent-estimate cache) -/

/-- C7: a cached entry is valid iff it exists with both a timestamp and
a value field and its age `now - timestamp` is strictly below the
configured duration; a valid entry makes `get_rent_estimate` return the
stored value with no external fetch, while an entry whose age equals or
exceeds the duration is treated as absent and forces a fetch. -/
theorem rent_cache_validity_policy (st : RentCastCacheState) (now : ℚ)
    (zip_code : String) (bedrooms : ℤ) (fetch : Option ℚ) :
    (∀ key, is_cache_valid st now key = true ↔
      ∃ entry ts v, st.cache_data.lookup key = some entry ∧
        entry.timestamp = some ts ∧ entry.data = some v ∧
        now - ts < st.cache_duration_seconds) ∧
    (∀ entry ts v, st.cache_data.lookup (cacheKey zip_code bedrooms) = some entry →
      entry.timestamp = some ts → entry.data = some v →
      now - ts < st.cache_duration_seconds →
      (get_rent_estimate st now fetch zip_code bedrooms).result = some v ∧
      (get_rent_estimate st now fetch zip_code bedrooms).fetched = false) ∧
    (∀ entry ts, st.cache_data.lookup (cacheKey zip_code bedrooms) = some entry →
      entry.timestamp = some ts →
      st.cache_duration_seconds ≤ now - ts →
      is_cache_valid st now (cacheKey zip_code bedrooms) = false ∧
      (get_rent_estimate st now fetch zip_code bedrooms).fetched = true) := by
  refine ⟨?_, ?_, ?_⟩
  · intro key
    cases heq : st.cache_data.lookup key with
    | none => simp [is_cache_valid, heq]
    | some entry =>
      cases hts : entry.timestamp with
      | none => simp [is_cache_valid, heq, hts]
      | some ts =>
        cases hd : entry.data with
        | none => simp [is_cache_valid, heq, hts, hd]
        | some v => simp [is_cache_valid, heq, hts, hd]
  · intro entry ts v hl hts hd hage
    have hvalid : is_cache_valid st now (cacheKey zip_code bedrooms) = true := by
      simp [is_cache_valid, hl, hts, hd, hage]
    constructor
    · simp [get_rent_estimate, hvalid, hl, hd]
    · simp [get_rent_estimate, hvalid]
  · intro entry ts hl hts hage
    have hvalid : is_cache_valid st now (cacheKey zip_code bedrooms) = false := by
      cases hd : entry.data with
      | none => simp [is_cache_valid, hl, hts, hd]
      | some v => simp [is_cache_valid, hl, hts, hd, not_lt.mpr hage]
    refine ⟨hvalid, ?_⟩
    cases fetch <;> simp [get_rent_estimate, hvalid]

/-- Example cache state for the cache witnesses: one fresh entry under
key `90210_3`. -/
def stEx : RentCastCacheState :=
  { cache_data := [("90210_3", ⟨some 0, some 2000⟩)], cache_duration_seconds := 100 }

/-- Helper: the cache key built for ZIP 90210 with 3 bedrooms. -/
theorem cacheKey_ex : cacheKey "90210" 3 = "90210_3" := by decide

/-- Helper: the example entry is found under its key. -/
theorem stEx_lookup :
    stEx.cache_data.lookup (cacheKey "90210" 3) = some ⟨some 0, some 2000⟩ := by
  rw [cacheKey_ex]; rfl

/-- C7 witness: a fresh entry is returned from the cache without a
fetch. -/
theorem rent_cache_validity_policy_witness :
    (get_rent_estimate stEx 10 none "90210" 3).result = some 2000 ∧
    (get_rent_estimate stEx 10 none "90210" 3).fetched = false :=
  (rent_cache_validity_policy stEx 10 "90210" 3 none).2.1
    ⟨some 0, some 2000⟩ 0 2000 stEx_lookup rfl rfl (by norm_num [stEx])

/-- Helper: the example cache entry is valid at time 10. -/
theorem stEx_valid : is_cache_valid stEx 10 (cacheKey "90210" 3) = true := by
  rw [cacheKey_ex]
  norm_num [is_cache_valid, stEx, List.lookup]

/-- C10: on a cache hit `get_rent_estimate` returns the cached value
and leaves the cache dictionary unchanged — no entry added, overwritten
or re-timestamped — and `_save_cache` is never called, so nothing is
written to disk. -/
theorem get_rent_estimate_hit_frame (st : RentCastCacheState) (now : ℚ)
    (fetch : Option ℚ) (zip_code : String) (bedrooms : ℤ)
    (hvalid : is_cache_valid st now (cacheKey zip_code bedrooms) = true) :
    (get_rent_estimate st now fetch zip_code bedrooms).state = st ∧
    (get_rent_estimate st now fetch zip_code bedrooms).saved = false ∧
    (get_rent_estimate st now fetch zip_code bedrooms).result =
      (st.cache_data.lookup (cacheKey zip_code bedrooms)).bind (fun entry => entry.data) := by
  simp [get_rent_estimate, hvalid]

/-- C10 witness: the frame condition at the example cache state, with a
would-be fetch result standing by that is not used. -/
theorem get_rent_estimate_hit_frame_witness :
    (get_rent_estimate stEx 10 (some 999) "90210" 3).state = stEx ∧
    (get_rent_estimate stEx 10 (some 999) "90210" 3).saved = false ∧
    (get_rent_estimate stEx 10 (some 999) "90210" 3).result =
      (stEx.cache_data.lookup (cacheKey "90210" 3)).bind (fun entry => entry.data) :=
  get_rent_estimate_hit_frame stEx 10 (some 999) "90210" 3 stEx_valid

end RealEstate
